import Mathlib

/-!
Verification of the meshtracking ingestion/reconciliation engine.

The definitions below are a shallow embedding of the Python sources:
* `mqtt_collector_pg.py` — bus-path frame decoding (`parse_service_envelope`),
  AES-CTR nonce construction (`init_nonce`), packet decryption (`decrypt_packet`)
  and the node upsert (`update_node`);
* `device_manager.py` — the device registry (`DeviceInfo`, `mark_success`,
  `mark_failure`, `should_remove`, `calculate_priority_score`), the scheduler
  (`select_primary_device`, `cleanup_dead_devices`), the poller (`poll_device`)
  and the direct-poll node upsert (`save_node_data`);
* `combined_server.py` — the GeoJSON surface filter on node coordinates.

Machine floats and timestamps are modelled as rationals, database NULLs as
`Option`, Python truthiness on numbers as "present and nonzero", and SQL
`COALESCE`/`CASE`/`GREATEST` explicitly in the upsert functions.
-/

namespace MeshTracking

/-! ## Byte-level primitives (mqtt_collector_pg.py lines 62-112) -/

/-- Little-endian byte encoding of a natural number into `w` bytes; embeds
`struct.pack` with formats `<Q` (w = 8) and `<I` (w = 4). -/
def le_bytes : Nat → Nat → List Nat
  | 0, _ => []
  | w + 1, x => (x % 256) :: le_bytes w (x / 256)

/-- Little-endian byte decoding; embeds `struct.unpack('<I', ...)`. -/
def le_decode (bs : List Nat) : Nat :=
  bs.foldr (fun b acc => b + 256 * acc) 0

/-- The Meshtastic default PSK for the LongFast channel
(mqtt_collector_pg.py lines 64-65). -/
def DEFAULT_PSK : List Nat :=
  [0xd4, 0xf1, 0xbb, 0x3a, 0x20, 0x29, 0x07, 0x59,
   0xf0, 0xbc, 0xff, 0xab, 0xcf, 0x4e, 0x69, 0x01]

/-- `init_nonce` (mqtt_collector_pg.py lines 71-82): 16-byte nonce laid out as
little-endian 64-bit packet id (bytes 0-7), little-endian 32-bit sender node
number (bytes 8-11), and a 32-bit counter starting at 0 (bytes 12-15). -/
def init_nonce (packet_id from_node : Nat) : List Nat :=
  le_bytes 8 packet_id ++ le_bytes 4 from_node ++ le_bytes 4 0

/-- Byte-wise XOR of two byte strings (truncating to the shorter input), as a
stream cipher applies its keystream. -/
def xorBytes (a b : List Nat) : List Nat :=
  List.zipWith (fun x y => x ^^^ y) a b

/-- The CTR-mode keystream: the block cipher `E` applied under `key` to the
12-byte nonce part followed by the 32-bit little-endian block counter,
for block indices `initial, initial+1, ...` (embeds
`Counter.new(32, prefix=nonce[0:12], initial_value=..., little_endian=True)`
from mqtt_collector_pg.py line 104). -/
def ctr_blocks (E : List Nat → List Nat → List Nat) (key pfx : List Nat)
    (initial n : Nat) : List Nat :=
  (List.range n).flatMap fun i => E key (pfx ++ le_bytes 4 ((initial + i) % 2 ^ 32))

/-- One AES-CTR pass (encryption and decryption are the same operation):
derive the nonce from packet id and sender, split it into the 12-byte
counter prefix and the 32-bit initial counter value, and XOR the data with
the keystream. The block cipher `E` is a parameter (the source delegates the
block function to the AES library); everything around it — nonce layout,
counter construction, keystream application — is embedded from
`decrypt_packet` (mqtt_collector_pg.py lines 85-112). -/
def ctr_crypt (E : List Nat → List Nat → List Nat) (key : List Nat)
    (packet_id from_node : Nat) (data : List Nat) : List Nat :=
  let nonce := init_nonce packet_id from_node
  let initial := le_decode (nonce.drop 12)
  let ks := ctr_blocks E key (nonce.take 12) initial ((data.length + 15) / 16)
  xorBytes data ks

/-- `decrypt_packet` (mqtt_collector_pg.py lines 85-112). -/
def decrypt_packet (E : List Nat → List Nat → List Nat)
    (packet_id from_node : Nat) (encrypted_bytes : List Nat)
    (key : List Nat := DEFAULT_PSK) : List Nat :=
  ctr_crypt E key packet_id from_node encrypted_bytes

/-- Encryption with the same scheme (CTR mode is symmetric; the repository only
decrypts, so encryption is the identical keystream application). -/
def encrypt_packet (E : List Nat → List Nat → List Nat)
    (packet_id from_node : Nat) (plaintext : List Nat)
    (key : List Nat := DEFAULT_PSK) : List Nat :=
  ctr_crypt E key packet_id from_node plaintext

/-! ## Data model: the `nodes` row and the `positions` history row -/

/-- One row of the `nodes` table, restricted to the columns the two ingestion
upserts read or write (`mqtt_collector_pg.py` lines 375-411,
`device_manager.py` lines 615-661). `position_source` exists in the schema
(combined_server.py lines 667-691) but neither ingestion upsert touches it. -/
structure StoredNode where
  node_num : Option Nat
  long_name : Option String
  short_name : Option String
  hw_model : Option Int
  role : Option Int
  latitude : Option ℚ
  longitude : Option ℚ
  altitude : Option ℚ
  battery_level : Option ℚ
  voltage : Option ℚ
  snr : Option ℚ
  hops_away : Option Int
  last_heard : Option ℚ
  source : Option String
  source_interface : Option String
  position_source : Option String
deriving Repr, DecidableEq

/-- One row of the append-only `positions` table. -/
structure PositionRow where
  latitude : ℚ
  longitude : ℚ
  altitude : Option ℚ
  position_source : String
deriving Repr, DecidableEq

/-- Python truthiness of an optional number: present and nonzero. -/
def truthyQ : Option ℚ → Bool
  | some x => x ≠ 0
  | none => false

/-! ## Bus path: `parse_service_envelope` (mqtt_collector_pg.py lines 126-315) -/

/-- The `user` dict built for a NODEINFO payload (lines 200-209). -/
structure BusUser where
  long_name : String
  short_name : String
  hw_model : Int
  role : Int
deriving Repr, DecidableEq

/-- The `position` dict built for a POSITION/MAP_REPORT payload
(lines 189-198 and 289-307). -/
structure BusPosition where
  latitude : ℚ
  longitude : ℚ
  altitude : Option ℚ
  ptime : Option ℚ
deriving Repr, DecidableEq

/-- The slice of the `telemetry` dict that the node upsert consumes
(battery level and voltage from the device-metrics group, lines 217-225 and
364-368); the other metric groups feed only the telemetry history table and
are orthogonal to the claims. -/
structure BusTelemetry where
  battery_level : Option ℚ
  voltage : Option ℚ
deriving Repr, DecidableEq

/-- The result dict of `parse_service_envelope` (lines 147-157 plus the
payload-specific keys). -/
structure BusParsed where
  from_num : Nat
  to_num : Option Nat
  packet_id : Nat
  channel : Nat
  rx_snr : Option ℚ
  user : Option BusUser
  position : Option BusPosition
  telemetry : Option BusTelemetry
  text_message : Option String
deriving Repr, DecidableEq

/-- The typed inner message carried by a packet, after protobuf parsing and —
for encrypted frames — successful decryption. Each constructor carries the raw
wire fields the classifier reads. -/
inductive InnerPayload where
  | positionApp (latitude_i longitude_i altitude ptime : Int)
  | nodeinfoApp (long_name short_name : String) (hw_model role : Int)
  | telemetryApp (device_metrics : Option (ℚ × ℚ))
  | textApp (text : Option String)
  | mapReportApp (latitude_i longitude_i altitude ptime : Int)
  | otherApp
deriving Repr, DecidableEq

/-- A `MeshPacket`: sender/recipient numbers as the protobuf exposes them
(`from` or `from_field` attribute, absent modelled as `none`), and the packet
body. `body = none` models a packet with neither a decoded nor a decryptable
payload (lines 166-185: decrypt failure and absent payload both abort). -/
structure MeshPacket where
  from_attr : Option Nat
  from_field : Option Nat
  to_num : Option Nat
  packet_id : Nat
  channel : Nat
  rx_snr : Option ℚ
  body : Option InnerPayload
deriving Repr, DecidableEq

/-- A `ServiceEnvelope` (line 129-135): `packet = none` models
`if not envelope.packet`. -/
structure ServiceEnvelope where
  packet : Option MeshPacket
  gateway_id : String
  channel_id : String
deriving Repr, DecidableEq

/-- Python `a or b` on optional numbers, as used for
`getattr(packet, 'from', None) or getattr(packet, 'from_field', None)`
(line 138): a present zero is falsy and falls through to `b`. -/
def pyOrNat : Option Nat → Option Nat → Option Nat
  | some n, b => if n = 0 then b else some n
  | none, b => b

/-- Position extraction (lines 190-198): the `position` key is set only when
`pos.latitude_i and pos.longitude_i` — both integer coordinates nonzero;
coordinates are divided by 10^7, and zero altitude/time become `None`. -/
def parse_position (latitude_i longitude_i altitude ptime : Int) :
    Option BusPosition :=
  if latitude_i ≠ 0 ∧ longitude_i ≠ 0 then
    some { latitude := (latitude_i : ℚ) / 10000000,
           longitude := (longitude_i : ℚ) / 10000000,
           altitude := if altitude ≠ 0 then some (altitude : ℚ) else none,
           ptime := if ptime ≠ 0 then some (ptime : ℚ) else none }
  else none

/-- The portnum dispatch (lines 188-307), adding the payload-specific key to
the result record. An unknown portnum adds nothing; an empty telemetry dict
and a text UTF-8 decode failure also add nothing. -/
def classify_payload (r : BusParsed) : InnerPayload → BusParsed
  | .positionApp la lo al t => { r with position := parse_position la lo al t }
  | .nodeinfoApp ln sn hw ro => { r with user := some ⟨ln, sn, hw, ro⟩ }
  | .telemetryApp dm =>
      match dm with
      | some (b, v) => { r with telemetry := some ⟨some b, some v⟩ }
      | none => r
  | .textApp t =>
      match t with
      | some s => { r with text_message := some s }
      | none => r
  | .mapReportApp la lo al t => { r with position := parse_position la lo al t }
  | .otherApp => r

/-- `parse_service_envelope` (lines 126-315): discard when the envelope has no
packet, when the sender number is missing or zero (`from_id` is `None` exactly
when `from_num` is falsy, lines 138-145), or when the packet has neither a
decoded nor a decryptable body; otherwise build the result record and apply the
portnum dispatch. -/
def parse_service_envelope (env : ServiceEnvelope) : Option BusParsed :=
  match env.packet with
  | none => none
  | some pkt =>
    match pyOrNat pkt.from_attr pkt.from_field with
    | none => none
    | some n =>
      if n = 0 then none
      else
        match pkt.body with
        | none => none
        | some inner =>
          some (classify_payload
            { from_num := n, to_num := pkt.to_num, packet_id := pkt.packet_id,
              channel := pkt.channel, rx_snr := pkt.rx_snr, user := none,
              position := none, telemetry := none, text_message := none } inner)

/-! ## Bus path: `update_node` (mqtt_collector_pg.py lines 318-598) -/

/-- `update_node` restricted to one node row: builds the `node_data` dict
(lines 329-372), runs the `nodes` upsert (lines 375-411) against the existing
row, and inserts a `positions` history row when the dict holds truthy
coordinates (lines 413-431). Returns the resulting node row and the optional
position row. `now` is the wall-clock timestamp taken at line 326. -/
def update_node (existing : Option StoredNode) (node_num : Nat)
    (data : BusParsed) (mqtt_topic : String) (now : ℚ) :
    StoredNode × Option PositionRow :=
  -- node_data: position fields only when `pos.get("latitude") and pos.get("longitude")`
  let nd_lat : Option ℚ :=
    match data.position with
    | some p => if p.latitude ≠ 0 ∧ p.longitude ≠ 0 then some p.latitude else none
    | none => none
  let nd_lon : Option ℚ :=
    match data.position with
    | some p => if p.latitude ≠ 0 ∧ p.longitude ≠ 0 then some p.longitude else none
    | none => none
  let nd_alt : Option ℚ :=
    match data.position with
    | some p => if p.latitude ≠ 0 ∧ p.longitude ≠ 0 then p.altitude else none
    | none => none
  let nd_long_name := data.user.map BusUser.long_name
  let nd_short_name := data.user.map BusUser.short_name
  let nd_hw_model := data.user.map BusUser.hw_model
  let nd_role := data.user.map BusUser.role
  let nd_battery := data.telemetry.bind BusTelemetry.battery_level
  let nd_voltage := data.telemetry.bind BusTelemetry.voltage
  let nd_snr := data.rx_snr
  let row : StoredNode :=
    match existing with
    | none =>
      -- plain INSERT (VALUES branch)
      { node_num := some node_num, long_name := nd_long_name,
        short_name := nd_short_name, hw_model := nd_hw_model, role := nd_role,
        latitude := nd_lat, longitude := nd_lon, altitude := nd_alt,
        battery_level := nd_battery, voltage := nd_voltage, snr := nd_snr,
        hops_away := none, last_heard := some now, source := some "mqtt",
        source_interface := some mqtt_topic, position_source := none }
    | some old =>
      -- ON CONFLICT (node_id) DO UPDATE SET ...
      { node_num := some node_num,
        long_name := nd_long_name <|> old.long_name,
        short_name := nd_short_name <|> old.short_name,
        hw_model := nd_hw_model <|> old.hw_model,
        role := nd_role <|> old.role,
        -- CASE WHEN EXCLUDED.latitude IS NOT NULL THEN EXCLUDED.latitude ELSE nodes.latitude END
        latitude := nd_lat <|> old.latitude,
        longitude := nd_lon <|> old.longitude,
        altitude := nd_alt <|> old.altitude,
        battery_level := nd_battery <|> old.battery_level,
        voltage := nd_voltage <|> old.voltage,
        snr := nd_snr <|> old.snr,
        hops_away := old.hops_away,
        -- last_heard = GREATEST(EXCLUDED.last_heard, nodes.last_heard); EXCLUDED is `now`
        last_heard := some (match old.last_heard with
          | some t => max now t
          | none => now),
        -- source = CASE WHEN nodes.source = 'radio' THEN 'radio' ELSE 'mqtt' END
        source := if old.source = some "radio" then some "radio" else some "mqtt",
        source_interface := if old.source = some "radio" then old.source_interface
          else some mqtt_topic,
        position_source := old.position_source }
  let pos_row : Option PositionRow :=
    if truthyQ nd_lat ∧ truthyQ nd_lon then
      some { latitude := nd_lat.getD 0, longitude := nd_lon.getD 0,
             altitude := nd_alt, position_source := "mqtt" }
    else none
  (row, pos_row)

/-! ## Direct-poll path: `save_node_data` (device_manager.py lines 548-763) -/

/-- One entry of the per-node dict list built by `poll_device`
(device_manager.py lines 457-526), restricted to the fields `save_node_data`
reads for the node upsert and the position history. -/
structure PollNode where
  node_num : Option Nat
  long_name : Option String
  short_name : Option String
  hw_model : Option Int
  role : Option Int
  latitude : Option ℚ
  longitude : Option ℚ
  altitude : Option ℚ
  battery_level : Option ℚ
  voltage : Option ℚ
  snr : Option ℚ
  hops_away : Option Int
  last_heard : Option ℚ
  source : String
  has_fixed_position : Bool
  is_self_report : Bool
deriving Repr, DecidableEq

/-- `save_node_data` restricted to one node (device_manager.py lines 557-754):
the position acceptance gate (rules 1-3, lines 573-604), the `nodes` upsert
(lines 615-661) and the `positions` history insert (lines 739-754). The
rule-3 branch of the source evaluates `pass` and is embedded as leaving
`should_update_position` true. -/
def save_node (existing : Option StoredNode) (node : PollNode) :
    StoredNode × Option PositionRow :=
  let should_update_position : Bool :=
    match existing with
    | none => true
    | some old =>
      if node.has_fixed_position ∧ ¬ node.is_self_report then false
      else if truthyQ old.latitude ∧ truthyQ old.longitude ∧
          truthyQ node.latitude ∧ truthyQ node.longitude then
        if |old.latitude.getD 0 - node.latitude.getD 0| < 1 / 10000 ∧
            |old.longitude.getD 0 - node.longitude.getD 0| < 1 / 10000 then
          false
        else true
      else true
  let new_lat := if should_update_position then node.latitude else none
  let new_lon := if should_update_position then node.longitude else none
  let new_alt := if should_update_position then node.altitude else none
  let row : StoredNode :=
    match existing with
    | none =>
      { node_num := node.node_num, long_name := node.long_name,
        short_name := node.short_name, hw_model := node.hw_model,
        role := node.role, latitude := new_lat, longitude := new_lon,
        altitude := new_alt, battery_level := node.battery_level,
        voltage := node.voltage, snr := node.snr, hops_away := node.hops_away,
        last_heard := node.last_heard, source := some "radio",
        source_interface := some node.source, position_source := none }
    | some old =>
      { node_num := node.node_num <|> old.node_num,
        long_name := node.long_name <|> old.long_name,
        short_name := node.short_name <|> old.short_name,
        hw_model := node.hw_model <|> old.hw_model,
        role := node.role <|> old.role,
        latitude := new_lat <|> old.latitude,
        longitude := new_lon <|> old.longitude,
        altitude := new_alt <|> old.altitude,
        battery_level := node.battery_level <|> old.battery_level,
        voltage := node.voltage <|> old.voltage,
        snr := node.snr <|> old.snr,
        hops_away := node.hops_away <|> old.hops_away,
        -- last_heard = COALESCE(EXCLUDED.last_heard, nodes.last_heard)
        last_heard := node.last_heard <|> old.last_heard,
        -- source = COALESCE('radio', nodes.source)
        source := some "radio",
        source_interface := some node.source,
        position_source := old.position_source }
  let pos_row : Option PositionRow :=
    if should_update_position ∧ truthyQ new_lat ∧ truthyQ new_lon then
      some { latitude := new_lat.getD 0, longitude := new_lon.getD 0,
             altitude := node.altitude, position_source := "gps" }
    else none
  (row, pos_row)

/-! ## Device registry and scheduler (device_manager.py lines 54-120, 765-817) -/

/-- `DeviceInfo` (device_manager.py lines 54-67), restricted to the fields the
registry operations and the election read or write. -/
structure DeviceInfo where
  dtype : String
  address : String
  name : String
  last_seen : ℚ
  fail_count : Nat
  node_count : Nat
  last_success : Option ℚ
  is_primary : Bool
  standby_poll_counter : Nat
deriving Repr, DecidableEq

/-- `DeviceInfo.mark_success` (lines 69-74). -/
def mark_success (d : DeviceInfo) (node_count : Nat) (now : ℚ) : DeviceInfo :=
  { d with last_seen := now, last_success := some now, fail_count := 0,
           node_count := node_count }

/-- `DeviceInfo.mark_failure` (lines 76-79). -/
def mark_failure (d : DeviceInfo) (now : ℚ) : DeviceInfo :=
  { d with fail_count := d.fail_count + 1, last_seen := now }

/-- `DeviceInfo.should_remove` (lines 81-83). -/
def should_remove (d : DeviceInfo) (max_fails : Nat) : Bool :=
  d.fail_count ≥ max_fails

/-- `DeviceInfo.calculate_priority_score` (lines 85-106), over exact rationals
in place of machine floats: zero for an empty node table, otherwise node count
times the reliability factor `max(0.5, 1 - 0.1*fail_count)` and — when
`last_success` is truthy — the recency factor `max(1.0, 1.1 - age/3600)`. -/
def calculate_priority_score (d : DeviceInfo) (now : ℚ) : ℚ :=
  if d.node_count = 0 then 0
  else
    let reliability : ℚ := max (1 / 2) (1 - (d.fail_count : ℚ) * (1 / 10))
    let score := (d.node_count : ℚ) * reliability
    match d.last_success with
    | some ls =>
      if ls ≠ 0 then
        let age_seconds := now - ls
        score * max 1 (11 / 10 - age_seconds / 3600)
      else score
    | none => score

/-- The election step of `select_primary_device` (lines 765-804): score every
registered device and take the head of the stable descending sort, i.e. the
first device whose score no later device strictly exceeds. -/
def select_primary (devices : List DeviceInfo) (now : ℚ) : Option DeviceInfo :=
  match devices with
  | [] => none
  | d :: rest =>
    some (rest.foldl
      (fun best x =>
        if calculate_priority_score x now > calculate_priority_score best now
        then x else best) d)

/-- `cleanup_dead_devices` (lines 806-817): delete from the registry every
device whose `fail_count` has reached the ceiling. The polling loop runs this
once per cycle (line 892). -/
def cleanup_dead_devices (devices : List DeviceInfo) (max_fails : Nat) :
    List DeviceInfo :=
  devices.filter fun d => ¬ should_remove d max_fails

/-! ## Device poller (device_manager.py lines 384-546) -/

/-- The outcome of the connect-and-read phase of one poll: either an exception
raised while connecting to or reading from the device, or the device node
table as a list of extracted entries. -/
inductive PollOutcome where
  | connect_failure
  | node_table (entries : List PollNode)
deriving Repr, DecidableEq

/-- `poll_device` (lines 384-546) as a state transition on the polled device:
a connection or read failure, and equally an empty node table, mark the device
failing and forward nothing to the store; a non-empty node table marks the
device successful with the retrieved count and forwards exactly that batch
(`save_node_data` is called once, with the full list). -/
def poll_device (d : DeviceInfo) (outcome : PollOutcome) (now : ℚ) :
    DeviceInfo × List PollNode :=
  match outcome with
  | .connect_failure => (mark_failure d now, [])
  | .node_table entries =>
    if entries.isEmpty then (mark_failure d now, [])
    else (mark_success d entries.length now, entries)

/-! ## Surfacing displayed coordinates (combined_server.py lines 347-414) -/

/-- The GeoJSON endpoint WHERE clause (combined_server.py lines 366-370):
a node is surfaced with a displayed coordinate only when both coordinates are
non-NULL and not zero. -/
def geojson_surfaced (nodes : List StoredNode) : List StoredNode :=
  nodes.filter fun n =>
    n.latitude.isSome ∧ n.longitude.isSome ∧
    n.latitude ≠ some 0 ∧ n.longitude ≠ some 0 ∧
    (n.latitude ≠ some 0 ∨ n.longitude ≠ some 0)

/-- Modelled from the spec: the direct-poll path receives node positions
already converted from integer-encoded to decimal coordinates inside the
third-party device library, outside these sources. Per §4.2 of the spec a
position with `latitude_i = 0` and `longitude_i = 0` is treated as "no
position" on the poll path as well, so the node-table entry carries no decimal
coordinates (and no altitude) for such a position. -/
def poll_derived_position (latitude_i longitude_i : Int) (altitude : Option Int) :
    Option (ℚ × ℚ × Option ℚ) :=
  if latitude_i = 0 ∧ longitude_i = 0 then none
  else some ((latitude_i : ℚ) / 10000000, (longitude_i : ℚ) / 10000000,
    altitude.map fun a => (a : ℚ))

/-! ## Concrete sample inputs for witnesses and counterexamples -/

/-- Witness for C6 at a concrete block cipher, key, packet and plaintext. -/
def c6_block_cipher : List Nat → List Nat → List Nat :=
  fun _ blk => (blk.map fun b => (b + 7) % 256).take 16 ++
    List.replicate (16 - blk.length) 90

/-- A stored node row with a position, used as the existing record in
C3 instances. -/
def c3_old : StoredNode :=
  { node_num := some 9, long_name := some "Base", short_name := some "B1",
    hw_model := some 43, role := some 2, latitude := some 59, longitude := some 10,
    altitude := some 100, battery_level := some 80, voltage := some 4,
    snr := some 7, hops_away := some 1, last_heard := some 500,
    source := some "mqtt", source_interface := some "msh/EU_868",
    position_source := none }

/-- A parsed bus update without a position key (as produced for an
integer-encoded (0,0) position). -/
def c3_data : BusParsed :=
  { from_num := 9, to_num := none, packet_id := 77, channel := 0,
    rx_snr := some 5, user := some ⟨"Base", "B1", 43, 2⟩, position := none,
    telemetry := some ⟨some 81, some 4⟩, text_message := none }

/-- A poll-path node-table entry without decimal coordinates (as derived from
an integer-encoded (0,0) position). -/
def c3_entry : PollNode :=
  { node_num := some 9, long_name := some "Base", short_name := some "B1",
    hw_model := some 43, role := some 2, latitude := none, longitude := none,
    altitude := none, battery_level := some 82, voltage := some 4,
    snr := some 7, hops_away := some 1, last_heard := some 600,
    source := "USB-ttyUSB0", has_fixed_position := false,
    is_self_report := false }

/-- A stored node row holding the literal coordinate (0,0). -/
def c3_zero_node : StoredNode :=
  { c3_old with node_num := some 11, latitude := some 0, longitude := some 0 }

/-- A third-party poll entry flagged as a fixed position, carrying different
coordinates, for the amended C1 witness. -/
def c1_entry : PollNode :=
  { c3_entry with
    has_fixed_position := true,
    latitude := some 61,
    longitude := some 12,
    altitude := some 9 }

/-- A stored node row whose position was fixed by a self-report (the record
the C1 counterexample starts from). -/
def c1_stored : StoredNode :=
  { node_num := some 4242, long_name := some "Cabin", short_name := some "CB",
    hw_model := some 43, role := some 2, latitude := some 59,
    longitude := some 10, altitude := some 100, battery_level := some 80,
    voltage := some 4, snr := some 7, hops_away := some 0,
    last_heard := some 500, source := some "radio",
    source_interface := some "USB-ttyUSB0", position_source := some "fixed" }

/-- A parsed bus update for the same node carrying different coordinates. -/
def c1_update : BusParsed :=
  { from_num := 4242, to_num := none, packet_id := 91, channel := 0,
    rx_snr := some 6, user := none, position := some ⟨60, 11, some 50, none⟩,
    telemetry := none, text_message := none }

/-- First poll-path update of the C2 counterexample: device timestamp 200. -/
def c2_first : PollNode :=
  { node_num := some 5, long_name := some "Node5", short_name := some "N5",
    hw_model := some 43, role := some 0, latitude := some 59,
    longitude := some 10, altitude := some 20, battery_level := some 90,
    voltage := some 4, snr := some 3, hops_away := some 1,
    last_heard := some 200, source := "USB-ttyUSB0",
    has_fixed_position := false, is_self_report := false }

/-- Second poll-path update of the C2 counterexample: the same node reported
with the older device timestamp 100. -/
def c2_second : PollNode :=
  { c2_first with last_heard := some 100, source := "WiFi-10.0.0.8" }

/-- The stored record of the C4 counterexample, with position (59,10). -/
def c4_stored : StoredNode :=
  { c3_old with node_num := some 4242, source := some "mqtt" }

/-- A bus update whose coordinates differ from (59,10) by 0.00005 degrees in
both axes — within the 0.0001-degree jitter band. -/
def c4_update : BusParsed :=
  { from_num := 4242, to_num := none, packet_id := 92, channel := 0,
    rx_snr := some 6, user := none,
    position := some ⟨59 + 1 / 20000, 10 + 1 / 20000, some 30, none⟩,
    telemetry := none, text_message := none }

/-- A poll-path entry with the same jitter-band coordinates, for the amended
C4 witness. -/
def c4_entry : PollNode :=
  { c3_entry with
    latitude := some (59 + 1 / 20000),
    longitude := some (10 + 1 / 20000),
    altitude := some 30 }

/-- A registered device with full reliability: 10 nodes, no failures. -/
def c7_dev_a : DeviceInfo :=
  { dtype := "serial", address := "/dev/ttyUSB0", name := "USB-ttyUSB0",
    last_seen := 900, fail_count := 0, node_count := 10,
    last_success := some 900, is_primary := false, standby_poll_counter := 0 }

/-- A registered device with equal coverage but two failures. -/
def c7_dev_b : DeviceInfo :=
  { dtype := "tcp", address := "10.0.0.8:4403", name := "WiFi-10.0.0.8",
    last_seen := 800, fail_count := 2, node_count := 10,
    last_success := some 700, is_primary := false, standby_poll_counter := 0 }

/-- A device whose failure count has reached the default ceiling of 10. -/
def c8_dead : DeviceInfo := { c7_dev_b with fail_count := 10 }

/-! ## Claim theorems -/

theorem xorBytes_length (a b : List Nat) :
    (xorBytes a b).length = min a.length b.length := by
  simp [xorBytes]

theorem xorBytes_cancel : ∀ (a b : List Nat), a.length ≤ b.length →
    xorBytes (xorBytes a b) b = a
  | [], _, _ => rfl
  | x :: a, y :: b, h => by
    simp only [xorBytes, List.zipWith]
    refine congrArg₂ _ ?_ (xorBytes_cancel a b (by simpa using h))
    rw [Nat.xor_assoc, Nat.xor_self, Nat.xor_zero]
  | x :: a, [], h => by simp at h

theorem bind_length_const (f : Nat → List Nat) (c : Nat)
    (h : ∀ i, (f i).length = c) : ∀ l : List Nat, (l.flatMap f).length = c * l.length
  | [] => by simp
  | x :: l => by
    rw [List.flatMap_cons, List.length_append, h x,
      bind_length_const f c h l, List.length_cons]
    ring

theorem ctr_blocks_length (E : List Nat → List Nat → List Nat)
    (key pfx : List Nat) (initial n : Nat)
    (hE : ∀ blk, (E key blk).length = 16) :
    (ctr_blocks E key pfx initial n).length = 16 * n := by
  unfold ctr_blocks
  rw [bind_length_const _ 16 (fun i => hE _) _, List.length_range]

/-- C6: encrypting any plaintext with AES-128-CTR under the default key, using
the 16-byte nonce built from the little-endian 64-bit packet id, the
little-endian 32-bit sender node number and a 32-bit block counter starting at
0, and then applying `decrypt_packet` with the same packet id, sender and key,
reproduces the original bytes exactly. Stated for every 16-byte-block cipher
`E` (the AES block function is a library primitive in the source). -/
theorem c6_decrypt_encrypt_roundtrip (E : List Nat → List Nat → List Nat)
    (hE : ∀ blk, (E DEFAULT_PSK blk).length = 16)
    (packet_id from_node : Nat) (plaintext : List Nat) :
    decrypt_packet E packet_id from_node
      (encrypt_packet E packet_id from_node plaintext DEFAULT_PSK) DEFAULT_PSK
      = plaintext := by
  unfold decrypt_packet encrypt_packet ctr_crypt
  have hblocks : ∀ m, (ctr_blocks E DEFAULT_PSK
      ((init_nonce packet_id from_node).take 12)
      (le_decode ((init_nonce packet_id from_node).drop 12)) m).length = 16 * m :=
    fun m => ctr_blocks_length _ _ _ _ _ hE
  have hle : plaintext.length ≤ 16 * ((plaintext.length + 15) / 16) := by omega
  have hct : (xorBytes plaintext (ctr_blocks E DEFAULT_PSK
      ((init_nonce packet_id from_node).take 12)
      (le_decode ((init_nonce packet_id from_node).drop 12))
      ((plaintext.length + 15) / 16))).length = plaintext.length := by
    rw [xorBytes_length, hblocks]
    omega
  rw [hct]
  exact xorBytes_cancel _ _ (by rw [hblocks]; omega)

theorem c6_decrypt_encrypt_roundtrip_witness :
    decrypt_packet c6_block_cipher 12345 67890
      (encrypt_packet c6_block_cipher 12345 67890 [1, 2, 3, 255, 0] DEFAULT_PSK)
      DEFAULT_PSK = [1, 2, 3, 255, 0] :=
  c6_decrypt_encrypt_roundtrip c6_block_cipher
    (fun blk => by simp [c6_block_cipher]; omega) 12345 67890 [1, 2, 3, 255, 0]


/-- C10: a bus frame whose sender node number is 0 or missing is discarded
whole by `parse_service_envelope` — nothing is returned and hence nothing is
written to the store — even when the frame carries a well-formed decodable
body; node number 0 is treated as an absent sender. -/
theorem c10_zero_sender_discarded (pkt : MeshPacket) (gw ch : String)
    (h1 : pkt.from_attr = none ∨ pkt.from_attr = some 0)
    (h2 : pkt.from_field = none ∨ pkt.from_field = some 0) :
    parse_service_envelope ⟨some pkt, gw, ch⟩ = none := by
  rcases h1 with h1 | h1 <;> rcases h2 with h2 | h2 <;>
    simp [parse_service_envelope, pyOrNat, h1, h2]

/-- Witness for C10: a concrete frame with sender number 0 in both attributes
and a decodable position body is discarded. -/
theorem c10_zero_sender_discarded_witness :
    parse_service_envelope
      ⟨some { from_attr := some 0, from_field := none, to_num := some 7,
              packet_id := 42, channel := 0, rx_snr := some 5,
              body := some (.positionApp 591234567 101234567 12 0) },
       "!gw", "LongFast"⟩ = none :=
  c10_zero_sender_discarded _ "!gw" "LongFast" (Or.inr rfl) (Or.inl rfl)

/-- C3: a position with integer-encoded coordinates (0,0) is treated as absent
on every ingestion path: the bus decoder derives no decimal position from it,
a bus update carrying no position writes no position field to the node record
and appends no PositionSample row, the poll-path conversion likewise derives
no decimal coordinates, an entry without coordinates writes no position field
and appends no PositionSample row, and a stored (0,0) coordinate is never
surfaced as a displayed coordinate by the GeoJSON filter. -/
theorem c3_zero_position_absent (altitude ptime : Int) (alt2 : Option Int)
    (old : StoredNode) (data : BusParsed) (hpos : data.position = none)
    (node_num : Nat) (topic : String) (now : ℚ)
    (node : PollNode) (hla : node.latitude = none) (hlo : node.longitude = none)
    (halt : node.altitude = none)
    (zn : StoredNode) (hz1 : zn.latitude = some 0) (hz2 : zn.longitude = some 0)
    (ns : List StoredNode) :
    parse_position 0 0 altitude ptime = none ∧
    poll_derived_position 0 0 alt2 = none ∧
    ((update_node (some old) node_num data topic now).1.latitude = old.latitude ∧
     (update_node (some old) node_num data topic now).1.longitude = old.longitude ∧
     (update_node (some old) node_num data topic now).1.altitude = old.altitude ∧
     (update_node (some old) node_num data topic now).2 = none) ∧
    ((save_node (some old) node).1.latitude = old.latitude ∧
     (save_node (some old) node).1.longitude = old.longitude ∧
     (save_node (some old) node).1.altitude = old.altitude ∧
     (save_node (some old) node).2 = none) ∧
    zn ∉ geojson_surfaced ns := by
  refine ⟨by simp [parse_position], by simp [poll_derived_position], ?_, ?_, ?_⟩
  · simp [update_node, hpos, truthyQ]
  · simp [save_node, hla, hlo, halt, truthyQ]
  · simp [geojson_surfaced, List.mem_filter, hz1, hz2]

/-- Witness for C3 at concrete inputs on every conjunct. -/
theorem c3_zero_position_absent_witness :
    parse_position 0 0 77 5 = none ∧
    poll_derived_position 0 0 (some 77) = none ∧
    ((update_node (some c3_old) 9 c3_data "msh/EU_868" 1000).1.latitude
        = c3_old.latitude ∧
     (update_node (some c3_old) 9 c3_data "msh/EU_868" 1000).1.longitude
        = c3_old.longitude ∧
     (update_node (some c3_old) 9 c3_data "msh/EU_868" 1000).1.altitude
        = c3_old.altitude ∧
     (update_node (some c3_old) 9 c3_data "msh/EU_868" 1000).2 = none) ∧
    ((save_node (some c3_old) c3_entry).1.latitude = c3_old.latitude ∧
     (save_node (some c3_old) c3_entry).1.longitude = c3_old.longitude ∧
     (save_node (some c3_old) c3_entry).1.altitude = c3_old.altitude ∧
     (save_node (some c3_old) c3_entry).2 = none) ∧
    c3_zero_node ∉ geojson_surfaced [c3_zero_node, c3_old] :=
  c3_zero_position_absent 77 5 (some 77) c3_old c3_data rfl 9 "msh/EU_868" 1000
    c3_entry rfl rfl rfl c3_zero_node rfl rfl [c3_zero_node, c3_old]

/-- C1 counterexample: the bus-path upsert contains no fixed-position guard.
Starting from a record whose position was fixed by a self-report (stored
coordinates (59,10)), a later bus frame carrying different coordinates (60,11)
— which per the spec glossary is not a self-report, since no polling
connection is involved — overwrites latitude, longitude and altitude and
appends a PositionSample row, refuting the claim for the bus path. -/
theorem c1_bus_overwrites_fixed_position :
    c1_stored.position_source = some "fixed" ∧
    c1_stored.latitude = some 59 ∧ c1_stored.longitude = some 10 ∧
    (update_node (some c1_stored) 4242 c1_update "msh/EU_868" 1000).1.latitude
      = some 60 ∧
    (update_node (some c1_stored) 4242 c1_update "msh/EU_868" 1000).1.longitude
      = some 11 ∧
    (update_node (some c1_stored) 4242 c1_update "msh/EU_868" 1000).1.altitude
      = some 50 ∧
    (update_node (some c1_stored) 4242 c1_update "msh/EU_868" 1000).2
      = some ⟨60, 11, some 50, "mqtt"⟩ := by
  refine ⟨rfl, rfl, rfl, ?_, ?_, ?_, ?_⟩ <;>
    simp [update_node, c1_stored, c1_update, truthyQ]

/-- C1 (amended): on the direct-poll path — the only path on which the source
distinguishes self-reports — an incoming node-table entry flagged as a fixed
position that is not a self-report leaves the stored latitude, longitude and
altitude unchanged and appends no PositionSample row, while its identity and
telemetry fields are still applied; the bus-path upsert has no fixed-position
guard and overwrites the stored position with any non-null differing
coordinates. -/
theorem c1_fixed_position_poll_path (old : StoredNode) (node : PollNode)
    (hfix : node.has_fixed_position = true)
    (hself : node.is_self_report = false) :
    (save_node (some old) node).1.latitude = old.latitude ∧
    (save_node (some old) node).1.longitude = old.longitude ∧
    (save_node (some old) node).1.altitude = old.altitude ∧
    (save_node (some old) node).2 = none ∧
    (save_node (some old) node).1.long_name = (node.long_name <|> old.long_name) ∧
    (save_node (some old) node).1.short_name
      = (node.short_name <|> old.short_name) ∧
    (save_node (some old) node).1.hw_model = (node.hw_model <|> old.hw_model) ∧
    (save_node (some old) node).1.role = (node.role <|> old.role) ∧
    (save_node (some old) node).1.battery_level
      = (node.battery_level <|> old.battery_level) ∧
    (save_node (some old) node).1.voltage = (node.voltage <|> old.voltage) ∧
    (save_node (some old) node).1.snr = (node.snr <|> old.snr) := by
  simp [save_node, hfix, hself]

/-- Witness for the amended C1 at a concrete fixed-position third-party
entry. -/
theorem c1_fixed_position_poll_path_witness :
    (save_node (some c3_old) c1_entry).1.latitude = c3_old.latitude ∧
    (save_node (some c3_old) c1_entry).2 = none :=
  ⟨(c1_fixed_position_poll_path c3_old c1_entry rfl rfl).1,
   (c1_fixed_position_poll_path c3_old c1_entry rfl rfl).2.2.2.1⟩

/-- C2 counterexample: on the direct-poll path `last_heard` is written with
COALESCE, not GREATEST. Applying an update with device timestamp 200 and then
one with the older timestamp 100 leaves `last_heard` at 100, not
max(100,200) = 200, so applying T1 < T2 in the two orders does not agree and
`last_heard` moves backwards. -/
theorem c2_poll_last_heard_moves_backwards :
    (save_node (some (save_node none c2_first).1) c2_second).1.last_heard
      = some 100 ∧
    (save_node (some (save_node none c2_second).1) c2_first).1.last_heard
      = some 200 ∧
    c2_first.last_heard = some 200 ∧ c2_second.last_heard = some 100 := by
  refine ⟨?_, ?_, rfl, rfl⟩ <;> simp [save_node, c2_first, c2_second, truthyQ]

/-- C2 (amended): on the bus path `last_heard` is monotonic — the upsert takes
GREATEST of the stored value and the arrival timestamp, so two updates with
arrival timestamps T1 and T2 applied in either order both leave
`last_heard = max T1 T2` starting from a fresh record, and a single update
never moves a stored `last_heard` backwards. On the direct-poll path
`last_heard` is COALESCE(new, stored): a later-applied update carrying an
older device timestamp overwrites the newer stored value. -/
theorem c2_bus_last_heard_monotonic (d1 d2 : BusParsed) (n1 n2 : Nat)
    (tp1 tp2 : String) (t1 t2 : ℚ)
    (old : StoredNode) (t0 : ℚ) (h : old.last_heard = some t0) (d : BusParsed)
    (n : Nat) (tp : String) (t : ℚ) :
    (update_node (some (update_node none n1 d1 tp1 t1).1) n2 d2 tp2 t2).1.last_heard
      = some (max t1 t2) ∧
    (update_node (some (update_node none n2 d2 tp2 t2).1) n1 d1 tp1 t1).1.last_heard
      = some (max t1 t2) ∧
    (update_node (some old) n d tp t).1.last_heard = some (max t t0) := by
  refine ⟨?_, ?_, ?_⟩ <;> simp [update_node, h, max_comm t1 t2]

/-- Witness for the amended C2 at concrete records, topics and timestamps. -/
theorem c2_bus_last_heard_monotonic_witness :
    (update_node (some (update_node none 9 c3_data "msh/a" 100).1) 9 c3_data
      "msh/b" 200).1.last_heard = some (max 100 200) ∧
    (update_node (some c3_old) 9 c3_data "msh/a" 50).1.last_heard
      = some (max 50 500) :=
  ⟨(c2_bus_last_heard_monotonic c3_data c3_data 9 9 "msh/a" "msh/b" 100 200
      c3_old 500 rfl c3_data 9 "msh/a" 50).1,
   (c2_bus_last_heard_monotonic c3_data c3_data 9 9 "msh/a" "msh/b" 100 200
      c3_old 500 rfl c3_data 9 "msh/a" 50).2.2⟩

/-- C4 counterexample: the bus path has no jitter filter. With a stored
position (59,10) and an incoming bus position differing by 0.00005 degrees in
both axes — less than 0.0001 degrees — the bus upsert still appends a new
PositionSample row (and moves the stored coordinates), refuting the claim for
the bus ingestion path. -/
theorem c4_bus_appends_jitter_row :
    c4_stored.latitude = some 59 ∧ c4_stored.longitude = some 10 ∧
    |(59 : ℚ) - (59 + 1 / 20000)| < 1 / 10000 ∧
    |(10 : ℚ) - (10 + 1 / 20000)| < 1 / 10000 ∧
    (update_node (some c4_stored) 4242 c4_update "msh/EU_868" 1000).2
      = some ⟨59 + 1 / 20000, 10 + 1 / 20000, some 30, "mqtt"⟩ := by
  refine ⟨rfl, rfl, by norm_num [abs_lt], by norm_num [abs_lt], ?_⟩
  simp [update_node, c4_update, truthyQ]
  norm_num

/-- C4 (amended): on the direct-poll path, when the stored and incoming
coordinates are all present and nonzero and differ by less than 0.0001 degrees
in both axes, the position update is rejected as a no-op — no PositionSample
row is appended and the stored coordinates and altitude are unchanged — while
the entry's identity and telemetry fields are still applied; the bus path has
no jitter filter and appends a PositionSample row for any truthy incoming
coordinates. -/
theorem c4_poll_jitter_filtered (old : StoredNode) (node : PollNode)
    (h1 : truthyQ old.latitude = true) (h2 : truthyQ old.longitude = true)
    (h3 : truthyQ node.latitude = true) (h4 : truthyQ node.longitude = true)
    (h5 : |old.latitude.getD 0 - node.latitude.getD 0| < 1 / 10000)
    (h6 : |old.longitude.getD 0 - node.longitude.getD 0| < 1 / 10000) :
    (save_node (some old) node).2 = none ∧
    (save_node (some old) node).1.latitude = old.latitude ∧
    (save_node (some old) node).1.longitude = old.longitude ∧
    (save_node (some old) node).1.altitude = old.altitude ∧
    (save_node (some old) node).1.long_name = (node.long_name <|> old.long_name) ∧
    (save_node (some old) node).1.short_name
      = (node.short_name <|> old.short_name) ∧
    (save_node (some old) node).1.battery_level
      = (node.battery_level <|> old.battery_level) ∧
    (save_node (some old) node).1.voltage = (node.voltage <|> old.voltage) := by
  by_cases hfix : (node.has_fixed_position = true) ∧ (node.is_self_report = false)
  · simp [save_node, hfix.1, hfix.2]
  · rw [one_div] at h5 h6
    simp [save_node, h1, h2, h3, h4, hfix, not_le.mpr h5, not_le.mpr h6]

/-- Witness for the amended C4 at a concrete jitter-band poll entry. -/
theorem c4_poll_jitter_filtered_witness :
    (save_node (some c4_stored) c4_entry).2 = none ∧
    (save_node (some c4_stored) c4_entry).1.latitude = c4_stored.latitude :=
  ⟨(c4_poll_jitter_filtered c4_stored c4_entry
      (by norm_num [c4_stored, c3_old, truthyQ])
      (by norm_num [c4_stored, c3_old, truthyQ])
      (by norm_num [c4_entry, c3_entry, truthyQ])
      (by norm_num [c4_entry, c3_entry, truthyQ])
      (by norm_num [c4_stored, c4_entry, c3_old, c3_entry, abs_lt])
      (by norm_num [c4_stored, c4_entry, c3_old, c3_entry, abs_lt])).1,
   (c4_poll_jitter_filtered c4_stored c4_entry
      (by norm_num [c4_stored, c3_old, truthyQ])
      (by norm_num [c4_stored, c3_old, truthyQ])
      (by norm_num [c4_entry, c3_entry, truthyQ])
      (by norm_num [c4_entry, c3_entry, truthyQ])
      (by norm_num [c4_stored, c4_entry, c3_old, c3_entry, abs_lt])
      (by norm_num [c4_stored, c4_entry, c3_old, c3_entry, abs_lt])).2.1⟩

/-- C5: `source` stickiness on the bus path — when the stored record has
source `radio`, any bus update leaves `source` equal to `radio` (never
downgraded to `mqtt`) and leaves `source_interface` unchanged. -/
theorem c5_radio_source_sticky (old : StoredNode) (h : old.source = some "radio")
    (node_num : Nat) (data : BusParsed) (topic : String) (now : ℚ) :
    (update_node (some old) node_num data topic now).1.source = some "radio" ∧
    (update_node (some old) node_num data topic now).1.source_interface
      = old.source_interface := by
  simp [update_node, h]

/-- Witness for C5 at a concrete radio-sourced record and bus update. -/
theorem c5_radio_source_sticky_witness :
    (update_node (some c1_stored) 4242 c3_data "msh/EU_868" 1000).1.source
      = some "radio" ∧
    (update_node (some c1_stored) 4242 c3_data "msh/EU_868" 1000).1.source_interface
      = c1_stored.source_interface :=
  c5_radio_source_sticky c1_stored rfl 4242 c3_data "msh/EU_868" 1000

/-- C7: for two devices with node counts 10 and 10 and failure counts 0 and 2,
and any non-negative ages since last success, the priority score
`node_count * max(0.5, 1 - 0.1*fail_count) * max(1.0, 1.1 - age/3600)` of the
zero-failure device is strictly greater than that of the two-failure device
(at least 10 against at most 8.8), so the election picks the zero-failure
device as the unique primary from either registry order. -/
theorem c7_primary_election (a b : DeviceInfo) (now : ℚ)
    (han : a.node_count = 10) (haf : a.fail_count = 0)
    (hbn : b.node_count = 10) (hbf : b.fail_count = 2)
    (hla : ∀ t, a.last_success = some t → t ≤ now)
    (hlb : ∀ t, b.last_success = some t → t ≤ now) :
    calculate_priority_score b now < calculate_priority_score a now ∧
    select_primary [a, b] now = some a ∧
    select_primary [b, a] now = some a := by
  have hsa : (10 : ℚ) ≤ calculate_priority_score a now := by
    unfold calculate_priority_score
    rw [han, haf]
    simp only [Nat.cast_ofNat, Nat.cast_zero, zero_mul, sub_zero,
      if_neg (by norm_num : ¬ (10 = 0))]
    rw [max_eq_right (by norm_num : (1 / 2 : ℚ) ≤ 1)]
    cases hls : a.last_success with
    | none => norm_num
    | some ls =>
      dsimp only
      by_cases h0 : ls = 0
      · simp [h0]
      · rw [if_pos h0]
        have h1 : (1 : ℚ) ≤ max 1 (11 / 10 - (now - ls) / 3600) := le_max_left _ _
        nlinarith
  have hsb : calculate_priority_score b now ≤ 44 / 5 := by
    unfold calculate_priority_score
    rw [hbn, hbf]
    simp only [Nat.cast_ofNat, if_neg (by norm_num : ¬ (10 = 0))]
    rw [show (1 : ℚ) - 2 * (1 / 10) = 4 / 5 by norm_num,
      max_eq_right (by norm_num : (1 / 2 : ℚ) ≤ 4 / 5)]
    cases hls : b.last_success with
    | none => norm_num
    | some ls =>
      dsimp only
      by_cases h0 : ls = 0
      · simp [h0]; norm_num
      · rw [if_pos h0]
        have hage : (0 : ℚ) ≤ (now - ls) / 3600 := by
          have hln := hlb ls hls
          have : (0 : ℚ) ≤ now - ls := by linarith
          positivity
        have h1 : max 1 (11 / 10 - (now - ls) / 3600) ≤ 11 / 10 :=
          max_le (by norm_num) (by linarith)
        nlinarith
  have hlt : calculate_priority_score b now < calculate_priority_score a now := by
    linarith
  refine ⟨hlt, ?_, ?_⟩
  · simp [select_primary, if_neg (not_lt.mpr (le_of_lt hlt))]
  · simp [select_primary, if_pos hlt]

/-- Witness for C7 at two concrete device snapshots. -/
theorem c7_primary_election_witness :
    calculate_priority_score c7_dev_b 1000 < calculate_priority_score c7_dev_a 1000 ∧
    select_primary [c7_dev_a, c7_dev_b] 1000 = some c7_dev_a ∧
    select_primary [c7_dev_b, c7_dev_a] 1000 = some c7_dev_a :=
  c7_primary_election c7_dev_a c7_dev_b 1000 rfl rfl rfl rfl
    (fun t ht => by
      have h9 : (900 : ℚ) = t := Option.some.inj ht
      rw [← h9]; norm_num)
    (fun t ht => by
      have h7 : (700 : ℚ) = t := Option.some.inj ht
      rw [← h7]; norm_num)

/-- C8: after `cleanup_dead_devices` — run once per polling cycle — every
device whose failure count has reached the ceiling `max_fails` is absent from
the registry, and every registered device below the ceiling is still
present (never removed). -/
theorem c8_failed_device_removed (devices : List DeviceInfo) (max_fails : Nat)
    (d : DeviceInfo) :
    (max_fails ≤ d.fail_count → d ∉ cleanup_dead_devices devices max_fails) ∧
    (d ∈ devices → d.fail_count < max_fails →
      d ∈ cleanup_dead_devices devices max_fails) := by
  constructor
  · intro h hmem
    rw [cleanup_dead_devices, List.mem_filter] at hmem
    simp [should_remove] at hmem
    omega
  · intro hmem h
    rw [cleanup_dead_devices, List.mem_filter]
    refine ⟨hmem, ?_⟩
    simp [should_remove]
    omega

/-- Witness for C8: a device at the ceiling is gone after cleanup while a
healthy device stays. -/
theorem c8_failed_device_removed_witness :
    c8_dead ∉ cleanup_dead_devices [c8_dead, c7_dev_a] 10 ∧
    c7_dev_a ∈ cleanup_dead_devices [c8_dead, c7_dev_a] 10 :=
  ⟨(c8_failed_device_removed [c8_dead, c7_dev_a] 10 c8_dead).1
      (by simp [c8_dead, c7_dev_b]),
   (c8_failed_device_removed [c8_dead, c7_dev_a] 10 c7_dev_a).2
      (List.mem_cons_of_mem _ (List.mem_cons_self _ _))
      (by simp [c7_dev_a])⟩

/-- C9: a poll that hits a connection or read failure — and likewise one that
returns an empty node table — marks the device failing (failure count
incremented by one) and forwards zero node updates to the store; only a fully
successful poll forwards its node list, as one whole batch, resetting the
failure count to 0 and recording the retrieved node count. -/
theorem c9_failed_poll_emits_nothing (d : DeviceInfo) (now : ℚ)
    (entries : List PollNode) (hne : entries ≠ []) :
    ((poll_device d .connect_failure now).2 = [] ∧
     (poll_device d .connect_failure now).1.fail_count = d.fail_count + 1) ∧
    ((poll_device d (.node_table []) now).2 = [] ∧
     (poll_device d (.node_table []) now).1.fail_count = d.fail_count + 1) ∧
    ((poll_device d (.node_table entries) now).2 = entries ∧
     (poll_device d (.node_table entries) now).1.fail_count = 0 ∧
     (poll_device d (.node_table entries) now).1.node_count = entries.length) := by
  refine ⟨⟨rfl, rfl⟩, ⟨rfl, rfl⟩, ?_, ?_, ?_⟩ <;>
    simp [poll_device, mark_success, mark_failure, hne]

/-- Witness for C9 at a concrete device and a one-entry node table. -/
theorem c9_failed_poll_emits_nothing_witness :
    (poll_device c7_dev_a .connect_failure 1000).2 = [] ∧
    (poll_device c7_dev_a (.node_table [c3_entry]) 1000).1.fail_count = 0 :=
  ⟨(c9_failed_poll_emits_nothing c7_dev_a 1000 [c3_entry]
      (List.cons_ne_nil _ _)).1.1,
   (c9_failed_poll_emits_nothing c7_dev_a 1000 [c3_entry]
      (List.cons_ne_nil _ _)).2.2.2.1⟩

end MeshTracking
